import Mathlib

/-!
Shallow embedding of `sql_chat.py`: the retry-wrapped LLM invocation
(`invoke_bedrock_with_retry`), the tier-to-template registry (`templates`),
the SQL generation pipeline (`generate_sql`) with its response-cleanup step,
and the per-tier dispatch functions (`return_low_matched_jobs`, ...).

External collaborators (the Bedrock LLM, the database) are parameters of the
embedded functions; the prompt-template formatting performed by the external
prompt library is modelled from the spec.  Machine-level effects (logging,
real-time sleeping) are reflected as observable traces: the number of calls
made to the completion function and the list of sleep durations, in order.
-/

set_option maxRecDepth 40000

/-! ## Python string primitives -/

/-- `chopSep sep s` removes `sep` from the front of `s` if `sep` is a prefix
of `s`, returning the remainder; otherwise `none`. -/
def chopSep : List Char → List Char → Option (List Char)
  | [], s => some s
  | _ :: _, [] => none
  | c :: cs, d :: ds => if c = d then chopSep cs ds else none

/-- `splitFirst sep s` finds the leftmost occurrence of `sep` in `s`,
returning the part before it and the part after it; `none` when `sep` does
not occur.  This models the search underlying both Python's `in` operator on
strings and `str.split`. -/
def splitFirst (sep : List Char) : List Char → Option (List Char × List Char)
  | [] =>
    match chopSep sep [] with
    | some rest => some ([], rest)
    | none => none
  | c :: cs =>
    match chopSep sep (c :: cs) with
    | some rest => some ([], rest)
    | none =>
      match splitFirst sep cs with
      | some (pre, post) => some (c :: pre, post)
      | none => none

/-- Python's substring containment test `sub in s`. -/
def containsSub (sub s : String) : Bool :=
  (splitFirst sub.toList s.toList).isSome

/-- The part of `s` after the first occurrence of `sep` (all of `s` when
`sep` does not occur).  Used to state what the spec claims about the
cleanup step. -/
def afterFirst (sep s : List Char) : List Char :=
  match splitFirst sep s with
  | some (_, post) => post
  | none => s

/-- The part of `s` before the first occurrence of `sep` (all of `s` when
`sep` does not occur). -/
def upToNext (sep s : List Char) : List Char :=
  match splitFirst sep s with
  | some (pre, _) => pre
  | none => s

/-- Python's whitespace class for `str.strip()` (ASCII part). -/
def isPySpace (c : Char) : Bool :=
  c = ' ' || c = '\t' || c = '\n' || c = '\r' || c = Char.ofNat 11 || c = Char.ofNat 12

/-- Python's `str.strip()` on a character list. -/
def pyStrip (s : List Char) : List Char :=
  ((s.dropWhile isPySpace).reverse.dropWhile isPySpace).reverse

/-- The literal marker scanned for by the response-cleanup step in
`generate_sql` (line 94 of `sql_chat.py`). -/
def sqlMarker : String := "SQL Query:"

/-- `sqlMarker` as a character list. -/
def markerChars : List Char := sqlMarker.toList

/-- Fueled worker for `splitOnMarker`; the fuel only bounds recursion depth
and is always sufficient at the fuel supplied by `splitOnMarker`. -/
def splitOnMarkerFuel : Nat → List Char → List (List Char)
  | 0, s => [s]
  | fuel + 1, s =>
    match splitFirst markerChars s with
    | none => [s]
    | some (pre, post) => pre :: splitOnMarkerFuel fuel post

/-- Python's `s.split("SQL Query:")`: the list of segments of `s` between
consecutive leftmost-first occurrences of the marker. -/
def splitOnMarker (s : List Char) : List (List Char) :=
  splitOnMarkerFuel s.length s

/-! ## Response cleanup (lines 94-97 of `sql_chat.py`) -/

/-- The cleanup applied to the raw LLM text inside `generate_sql`:
`if "SQL Query:" in generated_sql: generated_sql = generated_sql.split("SQL Query:")[1].strip()`,
then the (possibly unchanged) text is returned. -/
def clean_generated_sql (raw : String) : String :=
  if (splitFirst markerChars raw.toList).isSome then
    (pyStrip ((splitOnMarker raw.toList).getD 1 [])).asString
  else raw

/-! ## Retrying invoker (lines 57-73 of `sql_chat.py`) -/

/-- The marker whose presence in an error message classifies the error as a
throttling error (line 66 of `sql_chat.py`). -/
def throttleMarker : String := "ThrottlingException"

/-- The throttling classification `"ThrottlingException" in str(e)`. -/
def isThrottling (msg : String) : Bool := containsSub throttleMarker msg

/-- Classification of one attempt's outcome: `true` exactly when the attempt
failed with a throttling-class error. -/
def isThrottlingResult {α : Type} : Except String α → Bool
  | Except.ok _ => false
  | Except.error msg => isThrottling msg

/-- Observable outcome of `invoke_bedrock_with_retry`: a returned value, an
immediately re-raised non-throttling error, or the final
`RuntimeError("Exceeded maximum retries ...")`. -/
inductive InvokeOutcome (α : Type) where
  | ok (v : α)
  | fatal (msg : String)
  | exhausted
deriving DecidableEq, Repr

/-- The retry loop of `invoke_bedrock_with_retry`.  `f n` is the outcome of
the `n`-th call (0-based) of `prompt_chain.invoke(inputs)`; the arguments
after `f` are the remaining loop iterations, the number of calls made so
far, the current `wait_time`, and the sleeps performed so far (in order).
Returns the outcome together with the total number of calls and the full
sleep trace. -/
def retryGo {α : Type} (f : Nat → Except String α) :
    Nat → Nat → Nat → List Nat → InvokeOutcome α × Nat × List Nat
  | 0, calls, _, sleeps => (InvokeOutcome.exhausted, calls, sleeps)
  | remaining + 1, calls, wait, sleeps =>
    match f calls with
    | Except.ok v => (InvokeOutcome.ok v, calls + 1, sleeps)
    | Except.error msg =>
      if isThrottling msg then
        retryGo f remaining (calls + 1) (wait * 2) (sleeps ++ [wait])
      else
        (InvokeOutcome.fatal msg, calls + 1, sleeps)

/-- `invoke_bedrock_with_retry(prompt_chain, inputs, max_retries, initial_wait)`:
runs the loop `for attempt in range(max_retries)` starting from
`wait_time = initial_wait` with no sleeps performed yet. -/
def invoke_bedrock_with_retry {α : Type} (f : Nat → Except String α)
    (max_retries initial_wait : Nat) : InvokeOutcome α × Nat × List Nat :=
  retryGo f max_retries 0 initial_wait []

/-! ## Template registry (lines 17-50 of `sql_chat.py`) -/

/-- The `templates["low"]` prompt text, verbatim. -/
def template_low : String :=
  " \n    Based on the table schema below, write a plain SQL query that would answer the user\x27s question.\n    {schema}\n\n    Question: Given the SQL schema, return the job_ids from the job table where at least 3 of the provided skills {skills} Use the following format:\n    Example Query: SELECT j.job_id FROM job j JOIN application a ON j.job_id = a.job_id JOIN jobseeker js ON a.job_seeker_id = js.job_seeker_id WHERE string_to_array(js.skills, \x27,\x27) && ARRAY[\x27Python\x27, \x27Java\x27, \x27C\x27, \x27JavaScript\x27, \x27Spring Boot\x27, \x27Flask\x27, \x27TensorFlow\x27, \x27Bootstrap\x27, \x27ReactJS\x27, \x27Scikit-learn\x27, \x27Pandas\x27, \x27NumPy\x27, \x27Git\x27, \x27GitHub\x27, \x27JIRA\x27, \x27Photoshop\x27, \x27Cloud Technologies\x27, \x27Virtual and Augmented Reality\x27, \x27Blockchain\x27, \x27Prompt Engineering\x27, \x27IoT\x27, \x27Sports Analytics\x27];\n    Generate a very similar query with the given {skills} replacing the placeholder values. Note that string_to_array(js.skills, \x27,\x27) part is Must needed because It need to convert to array (without any explanations or formatting make a cumpulsory single line query):\n    "

/-- The `templates["medium"]` prompt text, verbatim. -/
def template_medium : String :=
  " \n    Based on the table schema below, write a plain SQL query that would answer the user\x27s question.\n    {schema}\n\n    Question: According to the SQL schema, I need to return the job_ids from the job table where at least 3 of the provided skills {skills} match with the job\x27s skills.\n\n    Postgres SQL Query (without any explanations or formatting make a single line query):\n    "

/-- The `templates["intermediate"]` prompt text, verbatim. -/
def template_intermediate : String :=
  " \n    Based on the table schema below, write a plain SQL query that would answer the user\x27s question.\n    {schema}\n\n    Question: Given the SQL schema, return the job_ids from the job table where at least 3 of the provided skills {skills} and the provided experience {experience} match with the job\x27s skills and experience column. Use the following format:\n    Example Query: SELECT j.job_id FROM job j JOIN application a ON j.job_id = a.job_id JOIN jobseeker js ON a.job_seeker_id = js.job_seeker_id WHERE string_to_array(js.skills, \x27,\x27) && ARRAY[\x27Python\x27, \x27Java\x27, \x27C\x27, \x27JavaScript\x27, \x27Spring Boot\x27, \x27Flask\x27, \x27TensorFlow\x27, \x27Bootstrap\x27, \x27ReactJS\x27, \x27Scikit-learn\x27, \x27Pandas\x27, \x27NumPy\x27, \x27Git\x27, \x27GitHub\x27, \x27JIRA\x27, \x27Photoshop\x27, \x27Cloud Technologies\x27, \x27Virtual and Augmented Reality\x27, \x27Blockchain\x27, \x27Prompt Engineering\x27, \x27IoT\x27, \x27Sports Analytics\x27] AND js.experience LIKE \x27%2 Year%\x27;\n    Generate a very similar query with the given {skills} and {experience} replacing the placeholder values. Note that string_to_array(js.skills, \x27,\x27) part is Must needed because It need to convert to array (without any explanations or formatting make a cumpulsory single line query):\n    "

/-- The `templates["high"]` prompt text, verbatim. -/
def template_high : String :=
  " \n    Based on the table schema below, write a plain SQL query that would answer the user\x27s question.\n    {schema}\n\n    Question: According to the SQL schema, I need to return the job_ids from the job table where at least 3 of the provided skills {skills} and the provided experience {experience} match with the job\x27s skills and experience column.\n\n    SQL Query (without any explanations or formatting make a single line query):\n    "

/-- The `templates` dictionary: lookup by tier name; `none` models the
`KeyError` raised by `templates[template_name]` for an unknown tier. -/
def templates (name : String) : Option String :=
  if name = "low" then some template_low
  else if name = "medium" then some template_medium
  else if name = "intermediate" then some template_intermediate
  else if name = "high" then some template_high
  else none

/-! ## Prompt assembly -/

/-- Reads a placeholder name up to the closing brace: `readName l` returns
the characters before the first closing brace of `l` and the characters
after it. -/
def readName : List Char → Option (List Char × List Char)
  | [] => none
  | c :: rest =>
    if c = Char.ofNat 125 then some ([], rest)
    else
      match readName rest with
      | some (n, r) => some (c :: n, r)
      | none => none

/-- Modelled from the spec: the placeholder substitution performed by the
external prompt-template collaborator (`ChatPromptTemplate` piped through the
chain in `generate_sql`), which is not part of this repository. Per spec
4.2, every `{name}` placeholder is replaced by the bound value as literal
text, and a placeholder with no bound value is an error (the
`MissingExperienceError` of the spec arises this way).  The fuel argument
only bounds recursion depth; each step consumes at least one template
character, so the fuel supplied by `formatTemplate` is always sufficient. -/
def formatCharsFuel (bs : List (String × String)) :
    Nat → List Char → List Char → Except String (List Char)
  | 0, _, _ => Except.error "format fuel exhausted"
  | _ + 1, acc, [] => Except.ok acc.reverse
  | fuel + 1, acc, c :: rest =>
    if c = Char.ofNat 123 then
      match readName rest with
      | none => Except.error "unclosed placeholder"
      | some (n, rest2) =>
        match List.lookup n.asString bs with
        | none => Except.error ("missing value for placeholder " ++ n.asString)
        | some v => formatCharsFuel bs fuel (v.toList.reverse ++ acc) rest2
    else
      formatCharsFuel bs fuel (c :: acc) rest

/-- Modelled from the spec: assemble the final prompt by substituting the
bindings into the template (spec 4.2). -/
def formatTemplate (bs : List (String × String)) (tmpl : String) : Except String String :=
  match formatCharsFuel bs (tmpl.toList.length + 1) [] tmpl.toList with
  | Except.error e => Except.error e
  | Except.ok t => Except.ok t.asString

/-- The error message produced when the template requires `{experience}`
and the inputs carry no experience value. -/
def missingExperienceMsg : String := "missing value for placeholder experience"

/-- One invocation of the `sql_chain` built in `generate_sql`: assign the
schema, format the prompt template, then call the LLM collaborator on the
assembled prompt.  A formatting failure surfaces as the chain's error and
the LLM is never consulted. -/
def chain_invoke (schema : String) (llmCall : String → Except String String)
    (tmpl : String) (inputs : List (String × String)) : Except String String :=
  match formatTemplate (("schema", schema) :: inputs) tmpl with
  | Except.error e => Except.error e
  | Except.ok p => llmCall p

/-! ## SQL generation pipeline (lines 76-104 of `sql_chat.py`) -/

/-- Failures surfaced by `generate_sql` to its caller. -/
inductive SqlChatError where
  | unknownTier (name : String)
  | invokeFatal (msg : String)
  | retryExhausted
deriving DecidableEq, Repr

/-- The inputs dict built in `generate_sql`: always `skills`, plus
`experience` exactly when it is truthy (`if experience:`, so `None` and the
empty string are both excluded). -/
def gen_inputs (skills : String) (experience : Option String) : List (String × String) :=
  ("skills", skills) ::
    (match experience with
     | some e => if e = "" then [] else [("experience", e)]
     | none => [])

/-- `generate_sql(template_name, skills, experience=None)`.  The external
collaborators appear as parameters: `schema` is the string returned by
`db.get_table_info()` and `llm i p` is the LLM collaborator's response to
prompt `p` on the `i`-th chain invocation.  Mirrors the source: look up the
template (a failed lookup is the `KeyError` of `templates[template_name]`,
raised before anything else happens), build the inputs dict (`experience`
included only when truthy), invoke the chain through
`invoke_bedrock_with_retry` with its default `max_retries=5`,
`initial_wait=1`, and clean the generated text.  Returns the result
together with the number of chain invocations and the sleep trace. -/
def generate_sql (schema : String) (llm : Nat → String → Except String String)
    (template_name skills : String) (experience : Option String) :
    Except SqlChatError String × Nat × List Nat :=
  match templates template_name with
  | none => (Except.error (SqlChatError.unknownTier template_name), 0, [])
  | some tmpl =>
    match invoke_bedrock_with_retry
        (fun i => chain_invoke schema (llm i) tmpl (gen_inputs skills experience)) 5 1 with
    | (InvokeOutcome.ok raw, calls, sleeps) =>
      (Except.ok (clean_generated_sql raw), calls, sleeps)
    | (InvokeOutcome.fatal msg, calls, sleeps) =>
      (Except.error (SqlChatError.invokeFatal msg), calls, sleeps)
    | (InvokeOutcome.exhausted, calls, sleeps) =>
      (Except.error SqlChatError.retryExhausted, calls, sleeps)

/-- `return_low_matched_jobs(skills)`: generate the SQL with the `low`
template and run it through the database collaborator `db_run`
(`db.run(query)`); any `generate_sql` failure propagates and the database
is never consulted. -/
def return_low_matched_jobs {ρ : Type} (schema : String)
    (llm : Nat → String → Except String String) (db_run : String → ρ)
    (skills : String) : Except SqlChatError ρ × Nat × List Nat :=
  match generate_sql schema llm "low" skills none with
  | (Except.ok sql, c, s) => (Except.ok (db_run sql), c, s)
  | (Except.error e, c, s) => (Except.error e, c, s)

/-- `return_medium_matched_jobs(skills)`. -/
def return_medium_matched_jobs {ρ : Type} (schema : String)
    (llm : Nat → String → Except String String) (db_run : String → ρ)
    (skills : String) : Except SqlChatError ρ × Nat × List Nat :=
  match generate_sql schema llm "medium" skills none with
  | (Except.ok sql, c, s) => (Except.ok (db_run sql), c, s)
  | (Except.error e, c, s) => (Except.error e, c, s)

/-- `return_intermediate_matched_jobs(skills, experience)`. -/
def return_intermediate_matched_jobs {ρ : Type} (schema : String)
    (llm : Nat → String → Except String String) (db_run : String → ρ)
    (skills : String) (experience : Option String) :
    Except SqlChatError ρ × Nat × List Nat :=
  match generate_sql schema llm "intermediate" skills experience with
  | (Except.ok sql, c, s) => (Except.ok (db_run sql), c, s)
  | (Except.error e, c, s) => (Except.error e, c, s)

/-- `return_high_matched_jobs(skills, experience)`. -/
def return_high_matched_jobs {ρ : Type} (schema : String)
    (llm : Nat → String → Except String String) (db_run : String → ρ)
    (skills : String) (experience : Option String) :
    Except SqlChatError ρ × Nat × List Nat :=
  match generate_sql schema llm "high" skills experience with
  | (Except.ok sql, c, s) => (Except.ok (db_run sql), c, s)
  | (Except.error e, c, s) => (Except.error e, c, s)

/-- The mock schema string used in the end-to-end scenario. -/
def mockSchema : String := "S"

/-- The skills string of the end-to-end scenario. -/
def lowSkills : String := "Python, Java, SQL"

/-- The prompt assembled for the `low` tier in the end-to-end scenario. -/
def lowPrompt : String :=
  match formatTemplate [("schema", mockSchema), ("skills", lowSkills)] template_low with
  | Except.ok p => p
  | Except.error _ => ""

/-- A completion function that throttles on every call. -/
def alwaysThrottleF : Nat → Except String Nat :=
  fun _ => Except.error "ThrottlingException"

/-- A completion function that throttles on exactly the first two calls and
then returns 42. -/
def throttleTwiceF : Nat → Except String Nat :=
  fun i => if i < 2 then Except.error "ThrottlingException hit" else Except.ok 42

/-- A completion function that fails with a non-throttling error on every
call. -/
def fatalF : Nat → Except String Nat :=
  fun _ => Except.error "AccessDeniedException"

/-! ## Helper lemmas about the string primitives -/

theorem chopSep_length : ∀ {sep s r : List Char}, chopSep sep s = some r →
    s.length = sep.length + r.length := by
  intro sep
  induction sep with
  | nil =>
    intro s r h
    unfold chopSep at h
    simp at h
    subst h
    simp
  | cons c cs ih =>
    intro s r h
    cases s with
    | nil => unfold chopSep at h; simp at h
    | cons d ds =>
      unfold chopSep at h
      by_cases hcd : c = d
      · rw [if_pos hcd] at h
        have := ih h
        simp [List.length_cons]
        omega
      · rw [if_neg hcd] at h
        simp at h

theorem splitFirst_length {sep : List Char} :
    ∀ {s pre post : List Char}, splitFirst sep s = some (pre, post) →
      s.length = pre.length + sep.length + post.length := by
  intro s
  induction s with
  | nil =>
    intro pre post h
    unfold splitFirst at h
    cases hc : chopSep sep [] with
    | none => rw [hc] at h; simp at h
    | some rest =>
      rw [hc] at h
      simp at h
      obtain ⟨rfl, rfl⟩ := h
      have := chopSep_length hc
      simp at this ⊢
      omega
  | cons c cs ih =>
    intro pre post h
    unfold splitFirst at h
    cases hc : chopSep sep (c :: cs) with
    | some rest =>
      rw [hc] at h
      simp at h
      obtain ⟨rfl, rfl⟩ := h
      have := chopSep_length hc
      simp at this ⊢
      omega
    | none =>
      rw [hc] at h
      cases hs : splitFirst sep cs with
      | none => rw [hs] at h; simp at h
      | some pq =>
        obtain ⟨p, q⟩ := pq
        rw [hs] at h
        simp at h
        obtain ⟨rfl, rfl⟩ := h
        have := ih hs
        simp [List.length_cons]
        omega

theorem splitOnMarkerFuel_congr :
    ∀ (f1 f2 : Nat) (s : List Char), s.length ≤ f1 → s.length ≤ f2 →
      splitOnMarkerFuel f1 s = splitOnMarkerFuel f2 s := by
  intro f1
  induction f1 with
  | zero =>
    intro f2 s h1 h2
    have hs : s = [] := List.length_eq_zero.mp (Nat.le_zero.mp h1)
    subst hs
    cases f2 with
    | zero => rfl
    | succ m => rfl
  | succ n ih =>
    intro f2 s h1 h2
    cases f2 with
    | zero =>
      have hs : s = [] := List.length_eq_zero.mp (Nat.le_zero.mp h2)
      subst hs
      rfl
    | succ m =>
      simp only [splitOnMarkerFuel]
      cases hs : splitFirst markerChars s with
      | none => rfl
      | some pq =>
        obtain ⟨pre, post⟩ := pq
        have hlen := splitFirst_length hs
        have hm : markerChars.length = 10 := rfl
        exact congrArg (fun l => pre :: l) (ih m post (by omega) (by omega))

theorem splitOnMarker_cons {s pre post : List Char}
    (h : splitFirst markerChars s = some (pre, post)) :
    splitOnMarker s = pre :: splitOnMarker post := by
  have hlen := splitFirst_length h
  have hm : markerChars.length = 10 := rfl
  unfold splitOnMarker
  obtain ⟨k, hk⟩ : ∃ k, s.length = k + 1 := ⟨s.length - 1, by omega⟩
  rw [hk]
  simp only [splitOnMarkerFuel, h]
  congr 1
  exact splitOnMarkerFuel_congr k post.length post (by omega) (by omega)

/-! ## Helper lemmas about the retry loop -/

theorem geom_append (w : Nat) (N : Nat) (acc : List Nat) :
    (acc ++ [w]) ++ (List.range N).map (fun i => w * 2 * 2 ^ i) =
      acc ++ (List.range (N + 1)).map (fun i => w * 2 ^ i) := by
  have hmap : (List.range N).map (fun i => w * 2 * 2 ^ i)
      = (List.range N).map (fun i => w * 2 ^ (i + 1)) := by
    apply List.map_congr_left
    intro a _
    rw [pow_succ]
    ring
  rw [List.append_assoc, hmap, List.range_succ_eq_map, List.map_cons, List.map_map]
  simp [Function.comp]

theorem retryGo_ok_of {α : Type} (f : Nat → Except String α) (v : α) :
    ∀ (N m a w : Nat) (acc : List Nat), N < m →
      (∀ i, i < N → isThrottlingResult (f (a + i)) = true) →
      f (a + N) = Except.ok v →
      retryGo f m a w acc =
        (InvokeOutcome.ok v, a + N + 1, acc ++ (List.range N).map (fun i => w * 2 ^ i)) := by
  intro N
  induction N with
  | zero =>
    intro m a w acc hm hth hok
    obtain ⟨m1, rfl⟩ : ∃ m1, m = m1 + 1 := ⟨m - 1, by omega⟩
    have hok2 : f a = Except.ok v := hok
    simp only [retryGo, hok2]
    simp
  | succ N ih =>
    intro m a w acc hm hth hok
    obtain ⟨m1, rfl⟩ : ∃ m1, m = m1 + 1 := ⟨m - 1, by omega⟩
    have h0 : isThrottlingResult (f a) = true := by
      have := hth 0 (Nat.succ_pos N)
      simpa using this
    cases hfa : f a with
    | ok v0 => rw [hfa] at h0; simp [isThrottlingResult] at h0
    | error msg =>
      rw [hfa] at h0
      have hmsg : isThrottling msg = true := h0
      simp only [retryGo, hfa, hmsg, if_true]
      have ih2 := ih m1 (a + 1) (w * 2) (acc ++ [w]) (by omega)
        (fun i hi => by
          have hcall := hth (i + 1) (by omega)
          have he : a + (i + 1) = a + 1 + i := by omega
          rwa [he] at hcall)
        (by
          have he : a + (N + 1) = a + 1 + N := by omega
          rwa [he] at hok)
      rw [ih2]
      have hnat : a + 1 + N + 1 = a + (N + 1) + 1 := by omega
      rw [hnat, geom_append]

theorem retryGo_exhaust_of {α : Type} (f : Nat → Except String α) :
    ∀ (m a w : Nat) (acc : List Nat),
      (∀ i, i < m → isThrottlingResult (f (a + i)) = true) →
      retryGo f m a w acc =
        (InvokeOutcome.exhausted, a + m, acc ++ (List.range m).map (fun i => w * 2 ^ i)) := by
  intro m
  induction m with
  | zero =>
    intro a w acc h
    simp [retryGo]
  | succ m ih =>
    intro a w acc h
    have h0 : isThrottlingResult (f a) = true := by
      have := h 0 (Nat.succ_pos m)
      simpa using this
    cases hfa : f a with
    | ok v0 => rw [hfa] at h0; simp [isThrottlingResult] at h0
    | error msg =>
      rw [hfa] at h0
      have hmsg : isThrottling msg = true := h0
      simp only [retryGo, hfa, hmsg, if_true]
      have ih2 := ih (a + 1) (w * 2) (acc ++ [w])
        (fun i hi => by
          have hcall := h (i + 1) (by omega)
          have he : a + (i + 1) = a + 1 + i := by omega
          rwa [he] at hcall)
      rw [ih2]
      have hnat : a + 1 + m = a + (m + 1) := by omega
      rw [hnat, geom_append]

theorem retry_fatal_of_first {α : Type} (f : Nat → Except String α) (msg : String)
    (m w : Nat) (hm : 0 < m) (hf : f 0 = Except.error msg)
    (hnt : isThrottling msg = false) :
    invoke_bedrock_with_retry f m w = (InvokeOutcome.fatal msg, 1, []) := by
  obtain ⟨m1, rfl⟩ : ∃ m1, m = m1 + 1 := ⟨m - 1, by omega⟩
  unfold invoke_bedrock_with_retry
  simp only [retryGo, hf, hnt]
  simp

theorem retry_ok_of_first {α : Type} (f : Nat → Except String α) (v : α)
    (m w : Nat) (hm : 0 < m) (hf : f 0 = Except.ok v) :
    invoke_bedrock_with_retry f m w = (InvokeOutcome.ok v, 1, []) := by
  obtain ⟨m1, rfl⟩ : ∃ m1, m = m1 + 1 := ⟨m - 1, by omega⟩
  unfold invoke_bedrock_with_retry
  simp only [retryGo, hf]

theorem splitOnMarker_single {s : List Char}
    (h : splitFirst markerChars s = none) : splitOnMarker s = [s] := by
  unfold splitOnMarker
  cases hl : s.length with
  | zero => rfl
  | succ k =>
    simp only [splitOnMarkerFuel, h]

/-! ## Claim theorems -/

/-- Claim C1: if the completion function raises a throttling-class error
(message containing the throttling marker) on exactly the first `N` calls
and then succeeds, with `N < max_retries`, then `invoke_bedrock_with_retry`
returns the success value, the completion function is called exactly `N + 1`
times, and the sleeps performed before each retry are the geometric sequence
`initial_wait, 2*initial_wait, ..., 2^(N-1)*initial_wait`. -/
theorem invoke_retry_throttle_then_success {α : Type} (f : Nat → Except String α)
    (N max_retries initial_wait : Nat) (v : α)
    (hN : N < max_retries)
    (hth : ∀ i, i < N → isThrottlingResult (f i) = true)
    (hok : f N = Except.ok v) :
    invoke_bedrock_with_retry f max_retries initial_wait =
      (InvokeOutcome.ok v, N + 1, (List.range N).map (fun i => initial_wait * 2 ^ i)) := by
  have h := retryGo_ok_of f v N max_retries 0 initial_wait [] hN
    (fun i hi => by rw [Nat.zero_add]; exact hth i hi)
    (by rw [Nat.zero_add]; exact hok)
  unfold invoke_bedrock_with_retry
  rw [h]
  simp

/-- Witness for C1: with a function throttling on exactly the first two
calls and returning 42 on the third, the retry wrapper returns 42 after 3
calls with sleeps 1s then 2s. -/
theorem invoke_retry_throttle_then_success_witness :
    isThrottlingResult (throttleTwiceF 0) = true ∧
    isThrottlingResult (throttleTwiceF 1) = true ∧
    throttleTwiceF 2 = Except.ok 42 ∧
    invoke_bedrock_with_retry throttleTwiceF 5 1 = (InvokeOutcome.ok 42, 3, [1, 2]) := by
  refine ⟨rfl, rfl, rfl, ?_⟩
  have h := invoke_retry_throttle_then_success throttleTwiceF 2 5 1 42 (by omega)
    (by decide) rfl
  have hl : (List.range 2).map (fun i => 1 * 2 ^ i) = [1, 2] := by decide
  rw [hl] at h
  exact h

/-- Counterexample to C2 as stated: with an always-throttling completion
function, `max_retries = 5` and `initial_wait = 1`, the code performs five
sleeps `1, 2, 4, 8, 16` (one after every throttled attempt, including a 16s
sleep after the fifth and final attempt), not the four sleeps `1, 2, 4, 8`
the claim asserts. -/
theorem invoke_retry_always_throttle_counterexample :
    invoke_bedrock_with_retry alwaysThrottleF 5 1
        = (InvokeOutcome.exhausted, 5, [1, 2, 4, 8, 16]) ∧
    ([1, 2, 4, 8, 16] : List Nat) ≠ [1, 2, 4, 8] :=
  ⟨rfl, by decide⟩

/-- Claim C2 (amended): with a completion function that raises a
throttling-class error on every call, `max_retries = 5` and
`initial_wait = 1`, the completion function is called exactly 5 times, the
retries-exhausted error is raised, and the waits performed are exactly
`1s, 2s, 4s, 8s, 16s` — one wait after each throttled attempt, including a
final 16s wait after the fifth attempt before the error is raised. -/
theorem invoke_retry_always_throttle_five {α : Type} (f : Nat → Except String α)
    (h : ∀ i, isThrottlingResult (f i) = true) :
    invoke_bedrock_with_retry f 5 1 = (InvokeOutcome.exhausted, 5, [1, 2, 4, 8, 16]) := by
  have hx := retryGo_exhaust_of f 5 0 1 [] (fun i _ => h (0 + i))
  unfold invoke_bedrock_with_retry
  rw [hx]
  have hl : (List.range 5).map (fun i => 1 * 2 ^ i) = [1, 2, 4, 8, 16] := by decide
  rw [hl]
  rfl

/-- Witness for the amended C2 at the always-throttling function. -/
theorem invoke_retry_always_throttle_five_witness :
    isThrottlingResult (alwaysThrottleF 0) = true ∧
    invoke_bedrock_with_retry alwaysThrottleF 5 1
        = (InvokeOutcome.exhausted, 5, [1, 2, 4, 8, 16]) :=
  ⟨rfl, invoke_retry_always_throttle_five alwaysThrottleF (fun _ => rfl)⟩

/-- Claim C3: if the first call of the completion function raises an error
whose message does not contain the throttling marker, the retry wrapper
re-raises that same error after exactly one call, with no sleep and no
further attempt. -/
theorem invoke_retry_nonthrottling_first {α : Type} (f : Nat → Except String α)
    (msg : String) (max_retries initial_wait : Nat)
    (hmax : 0 < max_retries) (hf : f 0 = Except.error msg)
    (hnt : isThrottling msg = false) :
    invoke_bedrock_with_retry f max_retries initial_wait
        = (InvokeOutcome.fatal msg, 1, []) :=
  retry_fatal_of_first f msg max_retries initial_wait hmax hf hnt

/-- Witness for C3 at a function failing with a non-throttling error. -/
theorem invoke_retry_nonthrottling_first_witness :
    0 < 5 ∧ fatalF 0 = Except.error "AccessDeniedException" ∧
    isThrottling "AccessDeniedException" = false ∧
    invoke_bedrock_with_retry fatalF 5 1
        = (InvokeOutcome.fatal "AccessDeniedException", 1, []) :=
  ⟨by omega, rfl, by decide,
    invoke_retry_nonthrottling_first fatalF "AccessDeniedException" 5 1 (by omega) rfl
      (by decide)⟩

/-- Claim C10: with `max_retries = 0` the loop body is never entered: the
completion function is called zero times and the retries-exhausted error is
raised immediately, with no sleeps. -/
theorem invoke_retry_zero_retries {α : Type} (f : Nat → Except String α)
    (initial_wait : Nat) :
    invoke_bedrock_with_retry f 0 initial_wait = (InvokeOutcome.exhausted, 0, []) := rfl

/-- Counterexample to C4 as stated: on a raw text in which the marker
occurs twice, the cleanup returns only the segment between the first and
the second occurrence (`split[1]`), not everything after the first
occurrence as the claim asserts. -/
theorem clean_sql_double_marker_counterexample :
    containsSub sqlMarker "SQL Query: A SQL Query: B" = true ∧
    clean_generated_sql "SQL Query: A SQL Query: B" = "A" ∧
    (pyStrip (afterFirst markerChars ("SQL Query: A SQL Query: B").toList)).asString
        = "A SQL Query: B" ∧
    ("A" : String) ≠ "A SQL Query: B" :=
  ⟨rfl, rfl, rfl, by decide⟩

/-- Claim C4 (amended): for every raw text containing the marker
`"SQL Query:"`, the cleanup step returns the segment of the text strictly
between the first occurrence of the marker and the next occurrence (or the
end of the text when the marker occurs only once), trimmed of surrounding
whitespace; this equals everything after the first occurrence exactly when
the marker occurs once. -/
theorem clean_sql_marker_segment (raw : String)
    (h : (splitFirst markerChars raw.toList).isSome = true) :
    clean_generated_sql raw =
      (pyStrip (upToNext markerChars (afterFirst markerChars raw.toList))).asString := by
  obtain ⟨pq, hsp⟩ := Option.isSome_iff_exists.mp h
  obtain ⟨pre, post⟩ := pq
  unfold clean_generated_sql afterFirst
  rw [hsp]
  simp only [Option.isSome_some, if_true]
  rw [splitOnMarker_cons hsp]
  unfold upToNext
  cases hq : splitFirst markerChars post with
  | none =>
    rw [splitOnMarker_single hq]
    rfl
  | some pq2 =>
    obtain ⟨p2, q2⟩ := pq2
    rw [splitOnMarker_cons hq]
    rfl

/-- Witness for the amended C4 at a raw text with a single marker. -/
theorem clean_sql_marker_segment_witness :
    (splitFirst markerChars ("SQL Query: SELECT 1;").toList).isSome = true ∧
    clean_generated_sql "SQL Query: SELECT 1;" =
      (pyStrip (upToNext markerChars
        (afterFirst markerChars ("SQL Query: SELECT 1;").toList))).asString :=
  ⟨rfl, clean_sql_marker_segment "SQL Query: SELECT 1;" rfl⟩

/-- Counterexample to C5 as stated: when the marker is absent, the code
returns the text exactly as it came, with surrounding whitespace intact —
it is not trimmed, contrary to the claim. -/
theorem clean_sql_whitespace_counterexample :
    containsSub sqlMarker " SELECT 1; " = false ∧
    clean_generated_sql " SELECT 1; " = " SELECT 1; " ∧
    (" SELECT 1; " : String) ≠ "SELECT 1;" :=
  ⟨rfl, rfl, by decide⟩

/-- Claim C5 (amended): for every raw text not containing the marker
`"SQL Query:"`, the cleanup step returns the text completely unchanged, with
no trimming; in particular `clean_generated_sql "SELECT 1;" = "SELECT 1;"`,
but whitespace-padded text keeps its padding. -/
theorem clean_sql_no_marker_unchanged (raw : String)
    (h : (splitFirst markerChars raw.toList).isSome = false) :
    clean_generated_sql raw = raw := by
  have hne : ¬ ((splitFirst markerChars raw.toList).isSome = true) := by
    rw [h]
    exact Bool.false_ne_true
  unfold clean_generated_sql
  rw [if_neg hne]

/-- Witness for the amended C5 at the spec's example input. -/
theorem clean_sql_no_marker_unchanged_witness :
    (splitFirst markerChars ("SELECT 1;").toList).isSome = false ∧
    clean_generated_sql "SELECT 1;" = "SELECT 1;" :=
  ⟨rfl, clean_sql_no_marker_unchanged "SELECT 1;" rfl⟩

/-- Claim C6: for every tier in the closed set
`{low, medium, intermediate, high}`, the template registry lookup is
defined and returns non-empty text containing the placeholder
`{skills}`; the `intermediate` and `high` templates additionally contain
the placeholder `{experience}`. -/
theorem templates_all_tiers_placeholders :
    (templates "low" = some template_low ∧ template_low ≠ "" ∧
      containsSub "{skills}" template_low = true) ∧
    (templates "medium" = some template_medium ∧ template_medium ≠ "" ∧
      containsSub "{skills}" template_medium = true) ∧
    (templates "intermediate" = some template_intermediate ∧ template_intermediate ≠ "" ∧
      containsSub "{skills}" template_intermediate = true ∧
      containsSub "{experience}" template_intermediate = true) ∧
    (templates "high" = some template_high ∧ template_high ≠ "" ∧
      containsSub "{skills}" template_high = true ∧
      containsSub "{experience}" template_high = true) :=
  ⟨⟨rfl, by decide, rfl⟩, ⟨rfl, by decide, rfl⟩,
    ⟨rfl, by decide, rfl, rfl⟩, ⟨rfl, by decide, rfl, rfl⟩⟩

/-- Claim C7: for every tier name outside the closed set
`{low, medium, intermediate, high}`, `generate_sql` fails immediately with
the unknown-tier error raised by the `templates[template_name]` lookup,
before any prompt assembly, LLM invocation, or database execution: the
result does not depend on the schema, LLM, skills or experience, the chain
is invoked zero times and no sleep is performed. -/
theorem generate_sql_unknown_tier (name : String)
    (h1 : name ≠ "low") (h2 : name ≠ "medium")
    (h3 : name ≠ "intermediate") (h4 : name ≠ "high")
    (schema : String) (llm : Nat → String → Except String String)
    (skills : String) (experience : Option String) :
    generate_sql schema llm name skills experience
        = (Except.error (SqlChatError.unknownTier name), 0, []) := by
  have ht : templates name = none := by
    unfold templates
    rw [if_neg h1, if_neg h2, if_neg h3, if_neg h4]
  unfold generate_sql
  rw [ht]

/-- Witness for C7 at the tier name `"extreme"`. -/
theorem generate_sql_unknown_tier_witness :
    ("extreme" : String) ≠ "low" ∧ ("extreme" : String) ≠ "medium" ∧
    ("extreme" : String) ≠ "intermediate" ∧ ("extreme" : String) ≠ "high" ∧
    generate_sql "S" (fun _ _ => Except.ok "q") "extreme" "X" none
        = (Except.error (SqlChatError.unknownTier "extreme"), 0, []) :=
  ⟨by decide, by decide, by decide, by decide,
    generate_sql_unknown_tier "extreme" (by decide) (by decide) (by decide) (by decide)
      "S" (fun _ _ => Except.ok "q") "X" none⟩

/-- Claim C8: assembling a prompt for tier `high` or `intermediate` with
experience absent fails with the missing-experience error, surfaced
immediately after a single chain invocation with no sleep, for every
schema, skills value, LLM and database collaborator — in particular the LLM
response is never used and no query is executed against the database. -/
theorem return_high_missing_experience {ρ : Type} (schema skills : String)
    (llm : Nat → String → Except String String) (db_run : String → ρ) :
    return_high_matched_jobs schema llm db_run skills none
        = (Except.error (SqlChatError.invokeFatal missingExperienceMsg), 1, []) ∧
    return_intermediate_matched_jobs schema llm db_run skills none
        = (Except.error (SqlChatError.invokeFatal missingExperienceMsg), 1, []) := by
  exact ⟨rfl, rfl⟩

/-- Claim C9: end-to-end for tier `low` with skills `"Python, Java, SQL"`
and the mock schema: the assembled prompt contains the literal skills
substring, and when the completion collaborator returns a fixed SQL text
and the database collaborator returns a fixed row set on the cleaned SQL,
`return_low_matched_jobs` returns exactly that row set after a single
chain invocation with no sleeps — the bare composition
assemble → invoke → clean → execute. -/
theorem return_low_end_to_end {ρ : Type} (rows : ρ) (sqlText : String)
    (db_run : String → ρ)
    (hdb : db_run (clean_generated_sql sqlText) = rows) :
    formatTemplate [("schema", mockSchema), ("skills", lowSkills)] template_low
        = Except.ok lowPrompt ∧
    containsSub "Python, Java, SQL" lowPrompt = true ∧
    return_low_matched_jobs mockSchema (fun _ _ => Except.ok sqlText) db_run lowSkills
        = (Except.ok rows, 1, []) := by
  refine ⟨rfl, rfl, ?_⟩
  show (Except.ok (db_run (clean_generated_sql sqlText)), 1, ([] : List Nat))
      = (Except.ok rows, 1, [])
  rw [hdb]

/-- Witness for C9 with a concrete mock LLM answer and a concrete mock
database returning the row set `[3, 7]`. -/
theorem return_low_end_to_end_witness :
    ((fun _ => ([3, 7] : List Nat))
        (clean_generated_sql "SQL Query: SELECT job_id FROM job;") = [3, 7]) ∧
    containsSub "Python, Java, SQL" lowPrompt = true ∧
    return_low_matched_jobs mockSchema
        (fun _ _ => Except.ok "SQL Query: SELECT job_id FROM job;")
        (fun _ => ([3, 7] : List Nat)) lowSkills
        = (Except.ok [3, 7], 1, []) := by
  have h := return_low_end_to_end ([3, 7] : List Nat)
    "SQL Query: SELECT job_id FROM job;" (fun _ => ([3, 7] : List Nat)) rfl
  exact ⟨rfl, h.2.1, h.2.2⟩
